import Mathlib

/-!
Shallow embedding of the arcade-shooter simulation core (`src/game.py`).

Positions, velocities, energies and time deltas are modelled as rationals.
Randomness (`random.uniform`, `random.randint`, `random.choices`, ...) and
the transcendental functions (`math.sin`, `math.cos`, `math.hypot`) are
abstracted into an oracle structure `Orac` of rational-valued draws, indexed
where the source draws per list element; claims about random ranges become
hypotheses on the oracle.  Python `int()` truncation and `pygame.Rect`
collision are modelled explicitly.
-/

set_option maxHeartbeats 1000000
set_option maxRecDepth 100000

namespace Pytroller

/-- Python `int()` applied to a float: truncation toward zero (the
denominator of a normalized rational is positive, and natural division
truncates the magnitude). -/
def pyInt (q : ℚ) : ℤ :=
  if q < 0 then -(((-q.num).toNat / q.den : ℕ) : ℤ) else ((q.num.toNat / q.den : ℕ) : ℤ)

/-- Python `x or 1.0` applied to a nonnegative float `x`: `1.0` exactly when
`x` is the falsy `0.0`, else `x` itself.  Used for the degenerate-distance
guards in the red-enemy aiming and snake chase-step calculations. -/
def pyOr1 (q : ℚ) : ℚ := if q = 0 then 1 else q

/-- Model of `pygame.Rect`: integer position and size. -/
structure Rect where
  x : ℤ
  y : ℤ
  rw : ℤ
  rh : ℤ
deriving DecidableEq

/-- Model of `pygame.Rect.colliderect` for the positive-size rectangles this program
constructs: strict overlap on both axes (touching edges do not collide). -/
def Rect.collide (a b : Rect) : Bool :=
  decide (b.x < a.x + a.rw) && decide (a.x < b.x + b.rw) &&
  decide (b.y < a.y + a.rh) && decide (a.y < b.y + b.rh)

/-- Background star (`Star` dataclass). -/
structure Star where
  x : ℚ
  y : ℚ
  layer : ℚ
deriving DecidableEq

/-- Projectile (`Laser` dataclass): friendly or hostile. -/
structure Laser where
  x : ℚ
  y : ℚ
  vx : ℚ
  vy : ℚ
  color : ℕ × ℕ × ℕ
  friendly : Bool
  lw : ℤ
  lh : ℤ
deriving DecidableEq

def YELLOW : ℕ × ℕ × ℕ := (240, 210, 70)

def REDCOL : ℕ × ℕ × ℕ := (240, 90, 90)

/-- Source `Laser.update`: integrate position by velocity. -/
def Laser.update (dt : ℚ) (b : Laser) : Laser :=
  { b with x := b.x + b.vx * dt, y := b.y + b.vy * dt }

/-- Source `Laser.rect`. -/
def Laser.rect (b : Laser) : Rect :=
  ⟨pyInt (b.x - (b.lw : ℚ) / 2), pyInt (b.y - (b.lh : ℚ) / 2), b.lw, b.lh⟩

/-- Collectible energy shard (`Shard` dataclass). -/
structure Shard where
  x : ℚ
  y : ℚ
  vx : ℚ
  vy : ℚ
  ttl : ℚ
  value : ℚ
deriving DecidableEq

/-- Source `Shard.update`: integrate position, apply 0.4/s drag, decrement ttl. -/
def Shard.update (dt : ℚ) (s : Shard) : Shard :=
  { s with
    x := s.x + s.vx * dt
    y := s.y + s.vy * dt
    vx := s.vx * (1 - 0.4 * dt)
    vy := s.vy * (1 - 0.4 * dt)
    ttl := s.ttl - dt }

/-- Source `Shard.rect`. -/
def Shard.rect (s : Shard) : Rect :=
  ⟨pyInt (s.x - 4), pyInt (s.y - 4), 8, 8⟩

/-- Enemy (`Enemy` dataclass).  The open `data` dict of the source is
modelled by one optional field per key actually used ("r", "shoot_cd",
"segs", "phase"); an absent key is `none` and `.get` defaults are the
`getD` defaults below. -/
structure Enemy where
  kind : String
  x : ℚ
  y : ℚ
  vx : ℚ
  vy : ℚ
  hp : ℚ
  t : ℚ
  data_r : Option ℤ
  data_shoot_cd : Option ℚ
  data_segs : Option (List (ℚ × ℚ))
  data_phase : Option ℚ
deriving DecidableEq

/-- Lookup `e.data.get("r", 18)`. -/
def Enemy.rGet (e : Enemy) : ℤ := e.data_r.getD 18

/-- Lookup `e.data.get("shoot_cd", 0.0)`. -/
def Enemy.cdGet (e : Enemy) : ℚ := e.data_shoot_cd.getD 0

/-- Lookup `e.data.get("segs", [])`. -/
def Enemy.segsGet (e : Enemy) : List (ℚ × ℚ) := e.data_segs.getD []

/-- Lookup `e.data.get("phase", 0.0)`. -/
def Enemy.phaseGet (e : Enemy) : ℚ := e.data_phase.getD 0

/-- Source `Enemy.rect`: 24×24 square for red, otherwise a square of half-side
`data.get("r", 18)`. -/
def Enemy.rect (e : Enemy) : Rect :=
  if e.kind = "red" then
    ⟨pyInt (e.x - 12), pyInt (e.y - 12), 24, 24⟩
  else
    let r := e.rGet
    ⟨pyInt (e.x - (r : ℚ)), pyInt (e.y - (r : ℚ)), r * 2, r * 2⟩

/-- Oracle for the random draws and transcendental functions of one
`Game.update` call.  Per-element draws are indexed by the element's position
in the list being traversed; per-shard draws by (dead-enemy index, shard
index). -/
structure Orac where
  sin : ℚ → ℚ
  cos : ℚ → ℚ
  hypot : ℚ → ℚ → ℚ
  starX : ℕ → ℚ
  starY : ℕ → ℚ
  spawnKind : String
  spawnY : ℚ
  astR : ℤ
  astSpeed : ℚ
  redCd0 : ℚ
  snakePhase : ℚ
  spawnReset : ℚ
  blobP : ℕ → Bool
  blobKick : ℕ → ℚ
  redCd : ℕ → ℚ
  dieN : ℕ → ℕ
  dieAng : ℕ → ℕ → ℚ
  dieSp : ℕ → ℕ → ℚ
  dieTtl : ℕ → ℕ → ℚ
  dieVal : ℕ → ℕ → ℚ

/-- World state (`Game.__init__` fields; the log callback is I/O glue and
carries no simulation state). -/
structure Game where
  w : ℚ
  h : ℚ
  px : ℚ
  py : ℚ
  base_speed : ℚ
  boost_mul : ℚ
  energy : ℚ
  energy_max : ℚ
  boost_active : Bool
  shield_active : Bool
  shoot_cd : ℚ
  score : ℕ
  stars : List Star
  bullets : List Laser
  ebullets : List Laser
  enemies : List Enemy
  shards : List Shard
  spawn_t : ℚ

/-- Constructor `Game.__init__(width, height)`: the 140 stars draw their position and
layer from the given init-time oracle functions. -/
def Game.init (w h : ℚ) (sx sy sl : ℕ → ℚ) : Game :=
  { w := w
    h := h
    px := w * 0.18
    py := h * 0.5
    base_speed := 220
    boost_mul := 2
    energy := 60
    energy_max := 120
    boost_active := false
    shield_active := false
    shoot_cd := 0
    score := 0
    stars := (List.range 140).map (fun i => ⟨sx i, sy i, sl i⟩)
    bullets := []
    ebullets := []
    enemies := []
    shards := []
    spawn_t := 1 }

/-- The fixed 24×20 player hitbox centered on the player (line 280). -/
def playerRect (px py : ℚ) : Rect :=
  ⟨pyInt (px - 12), pyInt (py - 10), 24, 20⟩

/-- Accumulated energy drain of stage 1 (lines 154-158): 20/s for active
boost plus 28/s for active shield. -/
def drainOf (dt : ℚ) (ba sa : Bool) : ℚ :=
  let drain : ℚ := 0
  let drain := if ba then drain + 20 * dt else drain
  if sa then drain + 28 * dt else drain

/-- Stage 1 (lines 151-159): boost/shield activation and energy drain. -/
def stageResource (dt : ℚ) (boost shield : Bool) (g : Game) : Game :=
  let ba := boost && decide (0 < g.energy)
  let sa := shield && decide (0 < g.energy)
  { g with
    boost_active := ba
    shield_active := sa
    energy := max 0 (g.energy - drainOf dt ba sa) }

/-- Stage 2 (lines 161-164): player movement with inset clamp. -/
def stageMove (dt move_dx move_dy : ℚ) (g : Game) : Game :=
  let speed := g.base_speed * (if g.boost_active then g.boost_mul else 1)
  { g with
    px := max 20 (min (g.w - 20) (g.px + move_dx * speed * dt))
    py := max 20 (min (g.h - 20) (g.py + move_dy * speed * dt)) }

/-- Source `Game._fire_player` (lines 118-121). -/
def firePlayer (g : Game) : Laser :=
  ⟨g.px + 18, g.py, 520, 0, YELLOW, true, 14, 3⟩

/-- Stage 3 (lines 166-170): cooldown and shooting. -/
def stageShoot (dt : ℚ) (shoot : Bool) (g : Game) : Game :=
  let cd := max 0 (g.shoot_cd - dt)
  let fire := shoot && decide (cd ≤ 0)
  { g with
    bullets := if fire then g.bullets ++ [firePlayer g] else g.bullets
    shoot_cd := if fire then 0.18 else cd }

/-- One star's parallax step and left-edge respawn (lines 174-178); the
respawn y is the oracle draw from `[0, height]`. -/
def starStep (o : Orac) (w dt par : ℚ) (i : ℕ) (s : Star) : Star :=
  let x := s.x - (35 * s.layer + par * s.layer) * dt
  if x < -2 then
    ⟨w + o.starX i, o.starY i, s.layer⟩
  else
    ⟨x, s.y, s.layer⟩

/-- Indexed traversal of the star list. -/
def starsGo (o : Orac) (w dt par : ℚ) : ℕ → List Star → List Star
  | _, [] => []
  | i, s :: ss => starStep o w dt par i s :: starsGo o w dt par (i + 1) ss

/-- Stage 4 (lines 172-178): background parallax. -/
def stageStars (o : Orac) (dt move_dx : ℚ) (g : Game) : Game :=
  let par := max 0 move_dx * 60
  { g with stars := starsGo o g.w dt par 0 g.stars }

/-- Stage 5 (lines 180-186): projectile kinematics and culling. -/
def stageBullets (dt : ℚ) (g : Game) : Game :=
  let bs := g.bullets.map (Laser.update dt)
  let ebs := g.ebullets.map (Laser.update dt)
  { g with
    bullets := bs.filter (fun b =>
      decide (-40 ≤ b.x) && decide (b.x ≤ g.w + 80) &&
      decide (-40 ≤ b.y) && decide (b.y ≤ g.h + 40))
    ebullets := ebs.filter (fun b =>
      decide (-80 ≤ b.x) && decide (b.x ≤ g.w + 40) &&
      decide (-40 ≤ b.y) && decide (b.y ≤ g.h + 40)) }

/-- Source `Game._spawn_enemy` (lines 123-136): the enemy appended for the drawn
kind; an oracle kind outside the four weighted choices appends nothing. -/
def spawnEnemies (o : Orac) (w : ℚ) : List Enemy :=
  let y := o.spawnY
  if o.spawnKind = "asteroid" then
    [⟨"asteroid", w + 40, y, -o.astSpeed, 0, 1 + (o.astR : ℚ) / 10, 0,
      some o.astR, none, none, none⟩]
  else if o.spawnKind = "blob" then
    [⟨"blob", w + 40, y, -140, 0, 3, 0, none, none, none, none⟩]
  else if o.spawnKind = "red" then
    [⟨"red", w + 50, y, -120, 0, 4, 0, none, some o.redCd0, none, none⟩]
  else if o.spawnKind = "snake" then
    [⟨"snake", w + 60, y, -130, 0, 6, 0, none, none,
      some ((List.range 8).map (fun i => (w + 60 + (i : ℚ) * 16, y))),
      some o.snakePhase⟩]
  else
    []

/-- Stage 6 (lines 188-192): spawn timer and enemy spawning. -/
def stageSpawn (o : Orac) (dt : ℚ) (g : Game) : Game :=
  let st := g.spawn_t - dt
  let sp := decide (st ≤ 0)
  { g with
    enemies := if sp then g.enemies ++ spawnEnemies o g.w else g.enemies
    spawn_t := if sp then o.spawnReset else st }

/-- The snake tail chase (lines 224-230): each segment moves toward its
already-updated predecessor by at most `100*dt`, never overshooting, with
the degenerate-distance guard. -/
def chase (o : Orac) (dt : ℚ) : ℚ × ℚ → List (ℚ × ℚ) → List (ℚ × ℚ)
  | _, [] => []
  | p, c :: rest =>
    let dx := p.1 - c.1
    let dy := p.2 - c.2
    let dist := pyOr1 (o.hypot dx dy)
    let step := min (100 * dt) dist
    let c' := (c.1 + dx / dist * step, c.2 + dy / dist * step)
    c' :: chase o dt c' rest

/-- One enemy's kinematic step (lines 194-232); a red enemy may fire one
hostile projectile. -/
def enemyStep (o : Orac) (dt px py h : ℚ) (i : ℕ) (e : Enemy) : Enemy × Option Laser :=
  let e := { e with t := e.t + dt }
  if e.kind = "asteroid" then
    ({ e with x := e.x + e.vx * dt }, none)
  else if e.kind = "blob" then
    let x := e.x + e.vx * dt
    let vy := if o.blobP i then e.vy + o.blobKick i else e.vy
    let vy := vy * (1 - 0.4 * dt)
    let y := e.y + vy * dt
    let y := max 20 (min (h - 20) y)
    ({ e with x := x, vy := vy, y := y }, none)
  else if e.kind = "red" then
    let x := e.x + e.vx * dt
    let cd := max 0 (e.cdGet - dt)
    if cd ≤ 0 then
      let dx := px - x
      let dy := py - e.y
      let L := pyOr1 (o.hypot dx dy)
      ({ e with x := x, data_shoot_cd := some (o.redCd i) },
       some ⟨x - 16, e.y, 280 * dx / L, 280 * dy / L, REDCOL, false, 14, 3⟩)
    else
      ({ e with x := x, data_shoot_cd := some cd }, none)
  else if e.kind = "snake" then
    let x := e.x + e.vx * dt
    let segs := e.segsGet
    let phase := e.phaseGet + dt * 2
    let head_y := e.y + o.sin (phase + x * 0.02) * 40
    match segs with
    | [] => ({ e with x := x, data_phase := some phase }, none)
    | _ :: rest =>
      let segs' := (x, head_y) :: chase o dt (x, head_y) rest
      ({ e with x := x, y := head_y, data_phase := some phase,
                data_segs := some segs' }, none)
  else
    (e, none)

/-- Indexed traversal of the enemy list, collecting fired projectiles in
iteration order. -/
def enemiesGo (o : Orac) (dt px py h : ℚ) : ℕ → List Enemy → List Enemy × List Laser
  | _, [] => ([], [])
  | i, e :: es =>
    let r := enemyStep o dt px py h i e
    let rest := enemiesGo o dt px py h (i + 1) es
    (r.1 :: rest.1, r.2.toList ++ rest.2)

/-- Stage 7 (lines 194-232): enemy kinematics and red-enemy fire. -/
def stageEnemies (o : Orac) (dt : ℚ) (g : Game) : Game :=
  let r := enemiesGo o dt g.px g.py g.h 0 g.enemies
  { g with enemies := r.1, ebullets := g.ebullets ++ r.2 }

/-- Stage 8 (line 235): enemy culling. -/
def stageCullEnemies (g : Game) : Game :=
  { g with enemies := g.enemies.filter (fun e =>
      decide (e.x > -80) && decide (-80 < e.y) && decide (e.y < g.h + 80)) }

/-- The variant hitbox predicate of stage 9 (lines 242-265): circle
distance-squared with radii `r+4` / 18 / 16 for asteroid / blob / snake,
rectangle intersection for red. -/
def enemyHit (b : Laser) (e : Enemy) : Bool :=
  if e.kind = "asteroid" then
    let r := e.rGet
    decide ((b.x - e.x) * (b.x - e.x) + (b.y - e.y) * (b.y - e.y) ≤ ((r : ℚ) + 4) ^ 2)
  else if e.kind = "blob" then
    decide ((b.x - e.x) * (b.x - e.x) + (b.y - e.y) * (b.y - e.y) ≤ (18 : ℚ) ^ 2)
  else if e.kind = "red" then
    Rect.collide b.rect e.rect
  else if e.kind = "snake" then
    decide ((b.x - e.x) * (b.x - e.x) + (b.y - e.y) * (b.y - e.y) ≤ (16 : ℚ) ^ 2)
  else
    false

/-- One bullet against the enemy list in collection order: `none` when no
enemy matches, otherwise the list with the first matching enemy's
hitpoints decremented by 1. -/
def hitFirst (b : Laser) : List Enemy → Option (List Enemy)
  | [] => none
  | e :: es =>
    if enemyHit b e then
      some ({ e with hp := e.hp - 1 } :: es)
    else
      (hitFirst b es).map (fun es' => e :: es')

/-- Stage 9 loop (lines 238-268): bullets in order against the evolving
enemy list; a hitting bullet is consumed. -/
def bulletsPass : List Laser → List Enemy → List Laser × List Enemy
  | [], es => ([], es)
  | b :: bs, es =>
    match hitFirst b es with
    | some es' => bulletsPass bs es'
    | none =>
      let r := bulletsPass bs es
      (b :: r.1, r.2)

/-- Stage 9 (lines 237-268): player bullets vs enemies. -/
def stageHits (g : Game) : Game :=
  let r := bulletsPass g.bullets g.enemies
  { g with bullets := r.1, enemies := r.2 }

/-- Source `Game._enemy_die` (lines 138-147): the shards spawned for the `k`-th
dead enemy. -/
def mkShards (o : Orac) (k : ℕ) (e : Enemy) : List Shard :=
  (List.range (o.dieN k)).map (fun j =>
    let ang := o.dieAng k j
    let sp := o.dieSp k j
    ⟨e.x, e.y, -sp * o.cos ang, sp * o.sin ang * 0.5, o.dieTtl k j, o.dieVal k j⟩)

/-- Stage 10 loop (lines 271-277): keep live enemies; each dead enemy
appends its shards and increments the score. -/
def deathsGo (o : Orac) : List Enemy → ℕ → List Shard → ℕ → List Enemy × List Shard × ℕ
  | [], _, sh, sc => ([], sh, sc)
  | e :: es, k, sh, sc =>
    if e.hp ≤ 0 then
      deathsGo o es (k + 1) (sh ++ mkShards o k e) (sc + 1)
    else
      let r := deathsGo o es k sh sc
      (e :: r.1, r.2.1, r.2.2)

/-- Stage 10 (lines 270-277): enemy death resolution. -/
def stageDeaths (o : Orac) (g : Game) : Game :=
  let r := deathsGo o g.enemies 0 g.shards g.score
  { g with enemies := r.1, shards := r.2.1, score := r.2.2 }

/-- Stage 11 loop (lines 281-290): each hostile projectile against the
player hitbox, threading energy; a colliding projectile is consumed,
dealing `max 0 (energy - 12)` unless the shield is active. -/
def ebGo (prect : Rect) (shield : Bool) : List Laser → ℚ → ℚ × List Laser
  | [], en => (en, [])
  | b :: bs, en =>
    if Rect.collide b.rect prect then
      if shield then
        ebGo prect shield bs en
      else
        ebGo prect shield bs (max 0 (en - 12))
    else
      let r := ebGo prect shield bs en
      (r.1, b :: r.2)

/-- Stage 11 (lines 279-291): hostile projectiles vs player. -/
def stageEbullets (g : Game) : Game :=
  let r := ebGo (playerRect g.px g.py) g.shield_active g.ebullets g.energy
  { g with energy := r.1, ebullets := r.2 }

/-- Stage 12 loop (lines 294-303): shard kinematics, ttl expiry, and
collection against the player hitbox (energy capped at `emax`). -/
def shGo (dt : ℚ) (prect : Rect) (emax : ℚ) : List Shard → ℚ → ℚ × List Shard
  | [], en => (en, [])
  | s :: ss, en =>
    let s := Shard.update dt s
    if s.ttl ≤ 0 then
      shGo dt prect emax ss en
    else if Rect.collide prect s.rect then
      shGo dt prect emax ss (min emax (en + s.value))
    else
      let r := shGo dt prect emax ss en
      (r.1, s :: r.2)

/-- Stage 12 (lines 293-303): shard lifecycle and collection. -/
def stageShards (dt : ℚ) (g : Game) : Game :=
  let r := shGo dt (playerRect g.px g.py) g.energy_max g.shards g.energy
  { g with energy := r.1, shards := r.2 }

/-- The state after stages 1-5 of `Game.update` (just after projectile
integration and culling). -/
def update5 (o : Orac) (dt move_dx move_dy : ℚ) (shoot boost shield : Bool)
    (g : Game) : Game :=
  stageBullets dt (stageStars o dt move_dx (stageShoot dt shoot
    (stageMove dt move_dx move_dy (stageResource dt boost shield g))))

/-- The state after stages 1-10 of `Game.update`. -/
def update10 (o : Orac) (dt move_dx move_dy : ℚ) (shoot boost shield : Bool)
    (g : Game) : Game :=
  stageDeaths o (stageHits (stageCullEnemies (stageEnemies o dt (stageSpawn o dt
    (update5 o dt move_dx move_dy shoot boost shield g)))))

/-- Source `Game.update` (lines 150-303): the twelve stages in source order. -/
def Game.update (o : Orac) (dt move_dx move_dy : ℚ) (shoot boost shield : Bool)
    (g : Game) : Game :=
  stageShards dt (stageEbullets (update10 o dt move_dx move_dy shoot boost shield g))

section Preservation
variable (o : Orac) (dt mdx mdy : ℚ) (sht bst shd : Bool) (g : Game)
@[simp] theorem stageResource_w : (stageResource dt bst shd g).w = g.w := rfl
@[simp] theorem stageResource_h : (stageResource dt bst shd g).h = g.h := rfl
@[simp] theorem stageResource_px : (stageResource dt bst shd g).px = g.px := rfl
@[simp] theorem stageResource_py : (stageResource dt bst shd g).py = g.py := rfl
@[simp] theorem stageResource_base_speed : (stageResource dt bst shd g).base_speed = g.base_speed := rfl
@[simp] theorem stageResource_boost_mul : (stageResource dt bst shd g).boost_mul = g.boost_mul := rfl
@[simp] theorem stageResource_energy_max : (stageResource dt bst shd g).energy_max = g.energy_max := rfl
@[simp] theorem stageResource_shoot_cd : (stageResource dt bst shd g).shoot_cd = g.shoot_cd := rfl
@[simp] theorem stageResource_score : (stageResource dt bst shd g).score = g.score := rfl
@[simp] theorem stageResource_stars : (stageResource dt bst shd g).stars = g.stars := rfl
@[simp] theorem stageResource_bullets : (stageResource dt bst shd g).bullets = g.bullets := rfl
@[simp] theorem stageResource_ebullets : (stageResource dt bst shd g).ebullets = g.ebullets := rfl
@[simp] theorem stageResource_enemies : (stageResource dt bst shd g).enemies = g.enemies := rfl
@[simp] theorem stageResource_shards : (stageResource dt bst shd g).shards = g.shards := rfl
@[simp] theorem stageResource_spawn_t : (stageResource dt bst shd g).spawn_t = g.spawn_t := rfl
@[simp] theorem stageMove_w : (stageMove dt mdx mdy g).w = g.w := rfl
@[simp] theorem stageMove_h : (stageMove dt mdx mdy g).h = g.h := rfl
@[simp] theorem stageMove_base_speed : (stageMove dt mdx mdy g).base_speed = g.base_speed := rfl
@[simp] theorem stageMove_boost_mul : (stageMove dt mdx mdy g).boost_mul = g.boost_mul := rfl
@[simp] theorem stageMove_energy : (stageMove dt mdx mdy g).energy = g.energy := rfl
@[simp] theorem stageMove_energy_max : (stageMove dt mdx mdy g).energy_max = g.energy_max := rfl
@[simp] theorem stageMove_boost_active : (stageMove dt mdx mdy g).boost_active = g.boost_active := rfl
@[simp] theorem stageMove_shield_active : (stageMove dt mdx mdy g).shield_active = g.shield_active := rfl
@[simp] theorem stageMove_shoot_cd : (stageMove dt mdx mdy g).shoot_cd = g.shoot_cd := rfl
@[simp] theorem stageMove_score : (stageMove dt mdx mdy g).score = g.score := rfl
@[simp] theorem stageMove_stars : (stageMove dt mdx mdy g).stars = g.stars := rfl
@[simp] theorem stageMove_bullets : (stageMove dt mdx mdy g).bullets = g.bullets := rfl
@[simp] theorem stageMove_ebullets : (stageMove dt mdx mdy g).ebullets = g.ebullets := rfl
@[simp] theorem stageMove_enemies : (stageMove dt mdx mdy g).enemies = g.enemies := rfl
@[simp] theorem stageMove_shards : (stageMove dt mdx mdy g).shards = g.shards := rfl
@[simp] theorem stageMove_spawn_t : (stageMove dt mdx mdy g).spawn_t = g.spawn_t := rfl
@[simp] theorem stageShoot_w : (stageShoot dt sht g).w = g.w := rfl
@[simp] theorem stageShoot_h : (stageShoot dt sht g).h = g.h := rfl
@[simp] theorem stageShoot_px : (stageShoot dt sht g).px = g.px := rfl
@[simp] theorem stageShoot_py : (stageShoot dt sht g).py = g.py := rfl
@[simp] theorem stageShoot_base_speed : (stageShoot dt sht g).base_speed = g.base_speed := rfl
@[simp] theorem stageShoot_boost_mul : (stageShoot dt sht g).boost_mul = g.boost_mul := rfl
@[simp] theorem stageShoot_energy : (stageShoot dt sht g).energy = g.energy := rfl
@[simp] theorem stageShoot_energy_max : (stageShoot dt sht g).energy_max = g.energy_max := rfl
@[simp] theorem stageShoot_boost_active : (stageShoot dt sht g).boost_active = g.boost_active := rfl
@[simp] theorem stageShoot_shield_active : (stageShoot dt sht g).shield_active = g.shield_active := rfl
@[simp] theorem stageShoot_score : (stageShoot dt sht g).score = g.score := rfl
@[simp] theorem stageShoot_stars : (stageShoot dt sht g).stars = g.stars := rfl
@[simp] theorem stageShoot_ebullets : (stageShoot dt sht g).ebullets = g.ebullets := rfl
@[simp] theorem stageShoot_enemies : (stageShoot dt sht g).enemies = g.enemies := rfl
@[simp] theorem stageShoot_shards : (stageShoot dt sht g).shards = g.shards := rfl
@[simp] theorem stageShoot_spawn_t : (stageShoot dt sht g).spawn_t = g.spawn_t := rfl
@[simp] theorem stageStars_w : (stageStars o dt mdx g).w = g.w := rfl
@[simp] theorem stageStars_h : (stageStars o dt mdx g).h = g.h := rfl
@[simp] theorem stageStars_px : (stageStars o dt mdx g).px = g.px := rfl
@[simp] theorem stageStars_py : (stageStars o dt mdx g).py = g.py := rfl
@[simp] theorem stageStars_base_speed : (stageStars o dt mdx g).base_speed = g.base_speed := rfl
@[simp] theorem stageStars_boost_mul : (stageStars o dt mdx g).boost_mul = g.boost_mul := rfl
@[simp] theorem stageStars_energy : (stageStars o dt mdx g).energy = g.energy := rfl
@[simp] theorem stageStars_energy_max : (stageStars o dt mdx g).energy_max = g.energy_max := rfl
@[simp] theorem stageStars_boost_active : (stageStars o dt mdx g).boost_active = g.boost_active := rfl
@[simp] theorem stageStars_shield_active : (stageStars o dt mdx g).shield_active = g.shield_active := rfl
@[simp] theorem stageStars_shoot_cd : (stageStars o dt mdx g).shoot_cd = g.shoot_cd := rfl
@[simp] theorem stageStars_score : (stageStars o dt mdx g).score = g.score := rfl
@[simp] theorem stageStars_bullets : (stageStars o dt mdx g).bullets = g.bullets := rfl
@[simp] theorem stageStars_ebullets : (stageStars o dt mdx g).ebullets = g.ebullets := rfl
@[simp] theorem stageStars_enemies : (stageStars o dt mdx g).enemies = g.enemies := rfl
@[simp] theorem stageStars_shards : (stageStars o dt mdx g).shards = g.shards := rfl
@[simp] theorem stageStars_spawn_t : (stageStars o dt mdx g).spawn_t = g.spawn_t := rfl
@[simp] theorem stageBullets_w : (stageBullets dt g).w = g.w := rfl
@[simp] theorem stageBullets_h : (stageBullets dt g).h = g.h := rfl
@[simp] theorem stageBullets_px : (stageBullets dt g).px = g.px := rfl
@[simp] theorem stageBullets_py : (stageBullets dt g).py = g.py := rfl
@[simp] theorem stageBullets_base_speed : (stageBullets dt g).base_speed = g.base_speed := rfl
@[simp] theorem stageBullets_boost_mul : (stageBullets dt g).boost_mul = g.boost_mul := rfl
@[simp] theorem stageBullets_energy : (stageBullets dt g).energy = g.energy := rfl
@[simp] theorem stageBullets_energy_max : (stageBullets dt g).energy_max = g.energy_max := rfl
@[simp] theorem stageBullets_boost_active : (stageBullets dt g).boost_active = g.boost_active := rfl
@[simp] theorem stageBullets_shield_active : (stageBullets dt g).shield_active = g.shield_active := rfl
@[simp] theorem stageBullets_shoot_cd : (stageBullets dt g).shoot_cd = g.shoot_cd := rfl
@[simp] theorem stageBullets_score : (stageBullets dt g).score = g.score := rfl
@[simp] theorem stageBullets_stars : (stageBullets dt g).stars = g.stars := rfl
@[simp] theorem stageBullets_enemies : (stageBullets dt g).enemies = g.enemies := rfl
@[simp] theorem stageBullets_shards : (stageBullets dt g).shards = g.shards := rfl
@[simp] theorem stageBullets_spawn_t : (stageBullets dt g).spawn_t = g.spawn_t := rfl
@[simp] theorem stageSpawn_w : (stageSpawn o dt g).w = g.w := rfl
@[simp] theorem stageSpawn_h : (stageSpawn o dt g).h = g.h := rfl
@[simp] theorem stageSpawn_px : (stageSpawn o dt g).px = g.px := rfl
@[simp] theorem stageSpawn_py : (stageSpawn o dt g).py = g.py := rfl
@[simp] theorem stageSpawn_base_speed : (stageSpawn o dt g).base_speed = g.base_speed := rfl
@[simp] theorem stageSpawn_boost_mul : (stageSpawn o dt g).boost_mul = g.boost_mul := rfl
@[simp] theorem stageSpawn_energy : (stageSpawn o dt g).energy = g.energy := rfl
@[simp] theorem stageSpawn_energy_max : (stageSpawn o dt g).energy_max = g.energy_max := rfl
@[simp] theorem stageSpawn_boost_active : (stageSpawn o dt g).boost_active = g.boost_active := rfl
@[simp] theorem stageSpawn_shield_active : (stageSpawn o dt g).shield_active = g.shield_active := rfl
@[simp] theorem stageSpawn_shoot_cd : (stageSpawn o dt g).shoot_cd = g.shoot_cd := rfl
@[simp] theorem stageSpawn_score : (stageSpawn o dt g).score = g.score := rfl
@[simp] theorem stageSpawn_stars : (stageSpawn o dt g).stars = g.stars := rfl
@[simp] theorem stageSpawn_bullets : (stageSpawn o dt g).bullets = g.bullets := rfl
@[simp] theorem stageSpawn_ebullets : (stageSpawn o dt g).ebullets = g.ebullets := rfl
@[simp] theorem stageSpawn_shards : (stageSpawn o dt g).shards = g.shards := rfl
@[simp] theorem stageEnemies_w : (stageEnemies o dt g).w = g.w := rfl
@[simp] theorem stageEnemies_h : (stageEnemies o dt g).h = g.h := rfl
@[simp] theorem stageEnemies_px : (stageEnemies o dt g).px = g.px := rfl
@[simp] theorem stageEnemies_py : (stageEnemies o dt g).py = g.py := rfl
@[simp] theorem stageEnemies_base_speed : (stageEnemies o dt g).base_speed = g.base_speed := rfl
@[simp] theorem stageEnemies_boost_mul : (stageEnemies o dt g).boost_mul = g.boost_mul := rfl
@[simp] theorem stageEnemies_energy : (stageEnemies o dt g).energy = g.energy := rfl
@[simp] theorem stageEnemies_energy_max : (stageEnemies o dt g).energy_max = g.energy_max := rfl
@[simp] theorem stageEnemies_boost_active : (stageEnemies o dt g).boost_active = g.boost_active := rfl
@[simp] theorem stageEnemies_shield_active : (stageEnemies o dt g).shield_active = g.shield_active := rfl
@[simp] theorem stageEnemies_shoot_cd : (stageEnemies o dt g).shoot_cd = g.shoot_cd := rfl
@[simp] theorem stageEnemies_score : (stageEnemies o dt g).score = g.score := rfl
@[simp] theorem stageEnemies_stars : (stageEnemies o dt g).stars = g.stars := rfl
@[simp] theorem stageEnemies_bullets : (stageEnemies o dt g).bullets = g.bullets := rfl
@[simp] theorem stageEnemies_shards : (stageEnemies o dt g).shards = g.shards := rfl
@[simp] theorem stageEnemies_spawn_t : (stageEnemies o dt g).spawn_t = g.spawn_t := rfl
@[simp] theorem stageCullEnemies_w : (stageCullEnemies g).w = g.w := rfl
@[simp] theorem stageCullEnemies_h : (stageCullEnemies g).h = g.h := rfl
@[simp] theorem stageCullEnemies_px : (stageCullEnemies g).px = g.px := rfl
@[simp] theorem stageCullEnemies_py : (stageCullEnemies g).py = g.py := rfl
@[simp] theorem stageCullEnemies_base_speed : (stageCullEnemies g).base_speed = g.base_speed := rfl
@[simp] theorem stageCullEnemies_boost_mul : (stageCullEnemies g).boost_mul = g.boost_mul := rfl
@[simp] theorem stageCullEnemies_energy : (stageCullEnemies g).energy = g.energy := rfl
@[simp] theorem stageCullEnemies_energy_max : (stageCullEnemies g).energy_max = g.energy_max := rfl
@[simp] theorem stageCullEnemies_boost_active : (stageCullEnemies g).boost_active = g.boost_active := rfl
@[simp] theorem stageCullEnemies_shield_active : (stageCullEnemies g).shield_active = g.shield_active := rfl
@[simp] theorem stageCullEnemies_shoot_cd : (stageCullEnemies g).shoot_cd = g.shoot_cd := rfl
@[simp] theorem stageCullEnemies_score : (stageCullEnemies g).score = g.score := rfl
@[simp] theorem stageCullEnemies_stars : (stageCullEnemies g).stars = g.stars := rfl
@[simp] theorem stageCullEnemies_bullets : (stageCullEnemies g).bullets = g.bullets := rfl
@[simp] theorem stageCullEnemies_ebullets : (stageCullEnemies g).ebullets = g.ebullets := rfl
@[simp] theorem stageCullEnemies_shards : (stageCullEnemies g).shards = g.shards := rfl
@[simp] theorem stageCullEnemies_spawn_t : (stageCullEnemies g).spawn_t = g.spawn_t := rfl
@[simp] theorem stageHits_w : (stageHits g).w = g.w := rfl
@[simp] theorem stageHits_h : (stageHits g).h = g.h := rfl
@[simp] theorem stageHits_px : (stageHits g).px = g.px := rfl
@[simp] theorem stageHits_py : (stageHits g).py = g.py := rfl
@[simp] theorem stageHits_base_speed : (stageHits g).base_speed = g.base_speed := rfl
@[simp] theorem stageHits_boost_mul : (stageHits g).boost_mul = g.boost_mul := rfl
@[simp] theorem stageHits_energy : (stageHits g).energy = g.energy := rfl
@[simp] theorem stageHits_energy_max : (stageHits g).energy_max = g.energy_max := rfl
@[simp] theorem stageHits_boost_active : (stageHits g).boost_active = g.boost_active := rfl
@[simp] theorem stageHits_shield_active : (stageHits g).shield_active = g.shield_active := rfl
@[simp] theorem stageHits_shoot_cd : (stageHits g).shoot_cd = g.shoot_cd := rfl
@[simp] theorem stageHits_score : (stageHits g).score = g.score := rfl
@[simp] theorem stageHits_stars : (stageHits g).stars = g.stars := rfl
@[simp] theorem stageHits_ebullets : (stageHits g).ebullets = g.ebullets := rfl
@[simp] theorem stageHits_shards : (stageHits g).shards = g.shards := rfl
@[simp] theorem stageHits_spawn_t : (stageHits g).spawn_t = g.spawn_t := rfl
@[simp] theorem stageDeaths_w : (stageDeaths o g).w = g.w := rfl
@[simp] theorem stageDeaths_h : (stageDeaths o g).h = g.h := rfl
@[simp] theorem stageDeaths_px : (stageDeaths o g).px = g.px := rfl
@[simp] theorem stageDeaths_py : (stageDeaths o g).py = g.py := rfl
@[simp] theorem stageDeaths_base_speed : (stageDeaths o g).base_speed = g.base_speed := rfl
@[simp] theorem stageDeaths_boost_mul : (stageDeaths o g).boost_mul = g.boost_mul := rfl
@[simp] theorem stageDeaths_energy : (stageDeaths o g).energy = g.energy := rfl
@[simp] theorem stageDeaths_energy_max : (stageDeaths o g).energy_max = g.energy_max := rfl
@[simp] theorem stageDeaths_boost_active : (stageDeaths o g).boost_active = g.boost_active := rfl
@[simp] theorem stageDeaths_shield_active : (stageDeaths o g).shield_active = g.shield_active := rfl
@[simp] theorem stageDeaths_shoot_cd : (stageDeaths o g).shoot_cd = g.shoot_cd := rfl
@[simp] theorem stageDeaths_stars : (stageDeaths o g).stars = g.stars := rfl
@[simp] theorem stageDeaths_bullets : (stageDeaths o g).bullets = g.bullets := rfl
@[simp] theorem stageDeaths_ebullets : (stageDeaths o g).ebullets = g.ebullets := rfl
@[simp] theorem stageDeaths_spawn_t : (stageDeaths o g).spawn_t = g.spawn_t := rfl
@[simp] theorem stageEbullets_w : (stageEbullets g).w = g.w := rfl
@[simp] theorem stageEbullets_h : (stageEbullets g).h = g.h := rfl
@[simp] theorem stageEbullets_px : (stageEbullets g).px = g.px := rfl
@[simp] theorem stageEbullets_py : (stageEbullets g).py = g.py := rfl
@[simp] theorem stageEbullets_base_speed : (stageEbullets g).base_speed = g.base_speed := rfl
@[simp] theorem stageEbullets_boost_mul : (stageEbullets g).boost_mul = g.boost_mul := rfl
@[simp] theorem stageEbullets_energy_max : (stageEbullets g).energy_max = g.energy_max := rfl
@[simp] theorem stageEbullets_boost_active : (stageEbullets g).boost_active = g.boost_active := rfl
@[simp] theorem stageEbullets_shield_active : (stageEbullets g).shield_active = g.shield_active := rfl
@[simp] theorem stageEbullets_shoot_cd : (stageEbullets g).shoot_cd = g.shoot_cd := rfl
@[simp] theorem stageEbullets_score : (stageEbullets g).score = g.score := rfl
@[simp] theorem stageEbullets_stars : (stageEbullets g).stars = g.stars := rfl
@[simp] theorem stageEbullets_bullets : (stageEbullets g).bullets = g.bullets := rfl
@[simp] theorem stageEbullets_enemies : (stageEbullets g).enemies = g.enemies := rfl
@[simp] theorem stageEbullets_shards : (stageEbullets g).shards = g.shards := rfl
@[simp] theorem stageEbullets_spawn_t : (stageEbullets g).spawn_t = g.spawn_t := rfl
@[simp] theorem stageShards_w : (stageShards dt g).w = g.w := rfl
@[simp] theorem stageShards_h : (stageShards dt g).h = g.h := rfl
@[simp] theorem stageShards_px : (stageShards dt g).px = g.px := rfl
@[simp] theorem stageShards_py : (stageShards dt g).py = g.py := rfl
@[simp] theorem stageShards_base_speed : (stageShards dt g).base_speed = g.base_speed := rfl
@[simp] theorem stageShards_boost_mul : (stageShards dt g).boost_mul = g.boost_mul := rfl
@[simp] theorem stageShards_energy_max : (stageShards dt g).energy_max = g.energy_max := rfl
@[simp] theorem stageShards_boost_active : (stageShards dt g).boost_active = g.boost_active := rfl
@[simp] theorem stageShards_shield_active : (stageShards dt g).shield_active = g.shield_active := rfl
@[simp] theorem stageShards_shoot_cd : (stageShards dt g).shoot_cd = g.shoot_cd := rfl
@[simp] theorem stageShards_score : (stageShards dt g).score = g.score := rfl
@[simp] theorem stageShards_stars : (stageShards dt g).stars = g.stars := rfl
@[simp] theorem stageShards_bullets : (stageShards dt g).bullets = g.bullets := rfl
@[simp] theorem stageShards_ebullets : (stageShards dt g).ebullets = g.ebullets := rfl
@[simp] theorem stageShards_enemies : (stageShards dt g).enemies = g.enemies := rfl
@[simp] theorem stageShards_spawn_t : (stageShards dt g).spawn_t = g.spawn_t := rfl
end Preservation



section Equations

variable (o : Orac) (dt mdx mdy : ℚ) (sht bst shd : Bool) (g : Game) (s : Shard)

@[simp] theorem stageResource_shield' :
    (stageResource dt bst shd g).shield_active = (shd && decide (0 < g.energy)) := rfl

@[simp] theorem stageResource_boost' :
    (stageResource dt bst shd g).boost_active = (bst && decide (0 < g.energy)) := rfl

theorem stageResource_energy' :
    (stageResource dt bst shd g).energy =
      max 0 (g.energy - drainOf dt (bst && decide (0 < g.energy))
        (shd && decide (0 < g.energy))) := rfl

theorem stageMove_px' :
    (stageMove dt mdx mdy g).px =
      max 20 (min (g.w - 20)
        (g.px + mdx * (g.base_speed * (if g.boost_active then g.boost_mul else 1)) * dt)) := rfl

theorem stageMove_py' :
    (stageMove dt mdx mdy g).py =
      max 20 (min (g.h - 20)
        (g.py + mdy * (g.base_speed * (if g.boost_active then g.boost_mul else 1)) * dt)) := rfl

theorem stageShoot_bullets' :
    (stageShoot dt sht g).bullets =
      (if sht && decide (max 0 (g.shoot_cd - dt) ≤ 0) then g.bullets ++ [firePlayer g]
       else g.bullets) := rfl

theorem stageStars_stars' :
    (stageStars o dt mdx g).stars = starsGo o g.w dt (max 0 mdx * 60) 0 g.stars := rfl

theorem stageBullets_bullets' :
    (stageBullets dt g).bullets =
      (g.bullets.map (Laser.update dt)).filter (fun b =>
        decide (-40 ≤ b.x) && decide (b.x ≤ g.w + 80) &&
        decide (-40 ≤ b.y) && decide (b.y ≤ g.h + 40)) := rfl

theorem stageBullets_ebullets' :
    (stageBullets dt g).ebullets =
      (g.ebullets.map (Laser.update dt)).filter (fun b =>
        decide (-80 ≤ b.x) && decide (b.x ≤ g.w + 40) &&
        decide (-40 ≤ b.y) && decide (b.y ≤ g.h + 40)) := rfl

theorem stageHits_bullets' :
    (stageHits g).bullets = (bulletsPass g.bullets g.enemies).1 := rfl

theorem stageHits_enemies' :
    (stageHits g).enemies = (bulletsPass g.bullets g.enemies).2 := rfl

theorem stageDeaths_enemies' :
    (stageDeaths o g).enemies = (deathsGo o g.enemies 0 g.shards g.score).1 := rfl

theorem stageDeaths_shards' :
    (stageDeaths o g).shards = (deathsGo o g.enemies 0 g.shards g.score).2.1 := rfl

theorem stageDeaths_score' :
    (stageDeaths o g).score = (deathsGo o g.enemies 0 g.shards g.score).2.2 := rfl

theorem stageEbullets_energy' :
    (stageEbullets g).energy =
      (ebGo (playerRect g.px g.py) g.shield_active g.ebullets g.energy).1 := rfl

theorem stageEbullets_ebullets' :
    (stageEbullets g).ebullets =
      (ebGo (playerRect g.px g.py) g.shield_active g.ebullets g.energy).2 := rfl

theorem stageShards_energy' :
    (stageShards dt g).energy =
      (shGo dt (playerRect g.px g.py) g.energy_max g.shards g.energy).1 := rfl

theorem stageShards_shards' :
    (stageShards dt g).shards =
      (shGo dt (playerRect g.px g.py) g.energy_max g.shards g.energy).2 := rfl

@[simp] theorem Shard.update_value : (Shard.update dt s).value = s.value := rfl

end Equations

theorem drainOf_nonneg (dt : ℚ) (ba sa : Bool) (hdt : 0 ≤ dt) : 0 ≤ drainOf dt ba sa := by
  cases ba <;> cases sa <;> simp [drainOf] <;> linarith

theorem starsGo_length (o : Orac) (w dt par : ℚ) :
    ∀ (i : ℕ) (ss : List Star), (starsGo o w dt par i ss).length = ss.length := by
  intro i ss
  induction ss generalizing i with
  | nil => rfl
  | cons s ss ih => simp [starsGo, ih]

theorem deathsGo_score_le (o : Orac) :
    ∀ (es : List Enemy) (k : ℕ) (sh : List Shard) (sc : ℕ),
      sc ≤ (deathsGo o es k sh sc).2.2 := by
  intro es
  induction es with
  | nil => intro k sh sc; exact le_refl _
  | cons e es ih =>
    intro k sh sc
    by_cases h : e.hp ≤ 0
    · simpa [deathsGo, h] using le_trans (Nat.le_succ sc) (ih (k + 1) (sh ++ mkShards o k e) (sc + 1))
    · simpa [deathsGo, h] using ih k sh sc

theorem ebGo_shield_energy (p : Rect) :
    ∀ (bs : List Laser) (en : ℚ), (ebGo p true bs en).1 = en := by
  intro bs
  induction bs with
  | nil => intro en; rfl
  | cons b bs ih =>
    intro en
    by_cases h : Rect.collide b.rect p
    · simpa [ebGo, h] using ih en
    · simpa [ebGo, h] using ih en

theorem max0_sub_max0 (a b : ℚ) (hb : 0 ≤ b) : max 0 (max 0 a - b) = max 0 (a - b) := by
  rcases le_total a 0 with h | h
  · rw [max_eq_left h, max_eq_left (by linarith), max_eq_left (by linarith)]
  · rw [max_eq_right h]


theorem ebGo_bounds (p : Rect) (sh : Bool) :
    ∀ (bs : List Laser) (en M : ℚ), 0 ≤ en → en ≤ M →
      0 ≤ (ebGo p sh bs en).1 ∧ (ebGo p sh bs en).1 ≤ M := by
  intro bs
  induction bs with
  | nil => intro en M h0 h1; exact ⟨h0, h1⟩
  | cons b bs ih =>
    intro en M h0 h1
    by_cases hc : Rect.collide b.rect p
    · cases sh with
      | true => simpa [ebGo, hc] using ih en M h0 h1
      | false =>
        have h0' : (0 : ℚ) ≤ max 0 (en - 12) := le_max_left _ _
        have h1' : max 0 (en - 12) ≤ M := max_le (le_trans h0 h1) (by linarith)
        simpa [ebGo, hc] using ih _ M h0' h1'
    · simpa [ebGo, hc] using ih en M h0 h1

theorem ebGo_spec (p : Rect) (sh : Bool) :
    ∀ (bs : List Laser) (en : ℚ), 0 ≤ en →
      (ebGo p sh bs en).2 = bs.filter (fun b => !(Rect.collide b.rect p)) ∧
      (ebGo p sh bs en).1 =
        (if sh then en
         else max 0 (en - 12 * ((bs.countP (fun b => Rect.collide b.rect p) : ℕ) : ℚ))) := by
  intro bs
  induction bs with
  | nil =>
    intro en h0
    refine ⟨rfl, ?_⟩
    cases sh with
    | true => rfl
    | false => simp [ebGo, max_eq_right h0]
  | cons b bs ih =>
    intro en h0
    by_cases hc : Rect.collide b.rect p
    · cases sh with
      | true =>
        obtain ⟨ih2, ih1⟩ := ih en h0
        refine ⟨?_, ?_⟩
        · simp [ebGo, hc, List.filter_cons, ih2]
        · simp [ebGo, hc]
          simpa using ih1
      | false =>
        have h0' : (0 : ℚ) ≤ max 0 (en - 12) := le_max_left _ _
        obtain ⟨ih2, ih1⟩ := ih (max 0 (en - 12)) h0'
        refine ⟨?_, ?_⟩
        · simp [ebGo, hc, List.filter_cons, ih2]
        · have he : (ebGo p false (b :: bs) en).1 = (ebGo p false bs (max 0 (en - 12))).1 := by
            simp [ebGo, hc]
          rw [he, ih1]
          simp only [Bool.false_eq_true, if_false]
          rw [max0_sub_max0 _ _ (by positivity)]
          have hcnt : List.countP (fun b => Rect.collide b.rect p) (b :: bs) =
              List.countP (fun b => Rect.collide b.rect p) bs + 1 := by
            simp [List.countP_cons, hc]
          rw [hcnt]
          congr 1
          push_cast
          ring
    · obtain ⟨ih2, ih1⟩ := ih en h0
      refine ⟨?_, ?_⟩
      · simp [ebGo, hc, List.filter_cons, ih2]
      · have he : (ebGo p sh (b :: bs) en).1 = (ebGo p sh bs en).1 := by
          simp [ebGo, hc]
        have hcnt : List.countP (fun b => Rect.collide b.rect p) (b :: bs) =
            List.countP (fun b => Rect.collide b.rect p) bs := by
          simp [List.countP_cons, hc]
        rw [he, ih1, hcnt]

theorem shGo_bounds (dt : ℚ) (p : Rect) :
    ∀ (ss : List Shard) (en M : ℚ), (∀ s ∈ ss, 0 ≤ s.value) → 0 ≤ en → en ≤ M →
      0 ≤ (shGo dt p M ss en).1 ∧ (shGo dt p M ss en).1 ≤ M := by
  intro ss
  induction ss with
  | nil => intro en M _ h0 h1; exact ⟨h0, h1⟩
  | cons s ss ih =>
    intro en M hv h0 h1
    have hv' : ∀ x ∈ ss, 0 ≤ x.value := fun x hx => hv x (List.mem_cons_of_mem _ hx)
    have hvs : (0 : ℚ) ≤ s.value := hv s (List.mem_cons_self _ _)
    by_cases ht : (Shard.update dt s).ttl ≤ 0
    · simpa [shGo, ht] using ih en M hv' h0 h1
    · by_cases hc : Rect.collide p (Shard.update dt s).rect
      · have h0' : (0 : ℚ) ≤ min M (en + (Shard.update dt s).value) := by
          refine le_min (le_trans h0 h1) ?_
          simp only [Shard.update_value]
          linarith
        simpa [shGo, ht, hc] using ih _ M hv' h0' (min_le_left _ _)
      · simpa [shGo, ht, hc] using ih en M hv' h0 h1

theorem deathsGo_shards_val (o : Orac) (hval : ∀ k j, 0 ≤ o.dieVal k j) :
    ∀ (es : List Enemy) (k : ℕ) (sh : List Shard) (sc : ℕ),
      (∀ s ∈ sh, 0 ≤ s.value) → ∀ s ∈ (deathsGo o es k sh sc).2.1, 0 ≤ s.value := by
  intro es
  induction es with
  | nil => intro k sh sc hsh s hs; exact hsh s hs
  | cons e es ih =>
    intro k sh sc hsh s hs
    by_cases h : e.hp ≤ 0
    · refine ih (k + 1) (sh ++ mkShards o k e) (sc + 1) ?_ s (by simpa [deathsGo, h] using hs)
      intro x hx
      rcases List.mem_append.1 hx with hx | hx
      · exact hsh x hx
      · simp only [mkShards, List.mem_map, List.mem_range] at hx
        obtain ⟨j, _, rfl⟩ := hx
        exact hval k j
    · exact ih k sh sc hsh s (by simpa [deathsGo, h] using hs)

theorem hitFirst_none (b : Laser) :
    ∀ es, hitFirst b es = none → ∀ e ∈ es, enemyHit b e = false := by
  intro es
  induction es with
  | nil => intro _ e he; cases he
  | cons e es ih =>
    intro h x hx
    by_cases hh : enemyHit b e
    · simp [hitFirst, hh] at h
    · have h' : hitFirst b es = none := by
        rw [hitFirst, if_neg hh] at h
        exact Option.map_eq_none'.1 h
      rcases List.mem_cons.1 hx with rfl | hx
      · cases hB : enemyHit b x
        · rfl
        · exact absurd hB hh
      · exact ih h' x hx

theorem hitFirst_some (b : Laser) :
    ∀ es es', hitFirst b es = some es' →
      ∃ pre e post, es = pre ++ e :: post ∧
        es' = pre ++ ({ e with hp := e.hp - 1 } :: post) ∧
        (∀ e' ∈ pre, enemyHit b e' = false) ∧ enemyHit b e = true := by
  intro es
  induction es with
  | nil => intro es' h; simp [hitFirst] at h
  | cons e es ih =>
    intro es' h
    by_cases hh : enemyHit b e
    · refine ⟨[], e, es, rfl, ?_, by simp, hh⟩
      rw [hitFirst, if_pos hh] at h
      exact (Option.some.injEq _ _ ▸ h).symm
    · rw [hitFirst, if_neg hh] at h
      obtain ⟨es'', h1, h2⟩ := Option.map_eq_some'.1 h
      obtain ⟨pre, e0, post, rfl, hes', hpre, hhit⟩ := ih es'' h1
      refine ⟨e :: pre, e0, post, rfl, ?_, ?_, hhit⟩
      · rw [← h2, hes']
        simp
      · intro x hx
        rcases List.mem_cons.1 hx with rfl | hx
        · cases hB : enemyHit b x
          · rfl
          · exact absurd hB hh
        · exact hpre x hx

theorem bulletsPass_sublist :
    ∀ (bs : List Laser) (es : List Enemy), ((bulletsPass bs es).1).Sublist bs := by
  intro bs
  induction bs with
  | nil => intro es; simp [bulletsPass]
  | cons b bs ih =>
    intro es
    cases hf : hitFirst b es with
    | some es' =>
      simp only [bulletsPass, hf]
      exact (ih es').trans (List.sublist_cons_self _ _)
    | none =>
      simp only [bulletsPass, hf]
      exact (ih es).cons₂ b


theorem deathsGo_spec (o : Orac)
    (hN : ∀ k, 2 ≤ o.dieN k ∧ o.dieN k ≤ 5)
    (hT : ∀ k j, 3 ≤ o.dieTtl k j ∧ o.dieTtl k j ≤ 6)
    (hV : ∀ k j, 6 ≤ o.dieVal k j ∧ o.dieVal k j ≤ 12) :
    ∀ (es : List Enemy) (k : ℕ) (sh : List Shard) (sc : ℕ),
      (deathsGo o es k sh sc).1 = es.filter (fun e => !decide (e.hp ≤ 0)) ∧
      (deathsGo o es k sh sc).2.2 = sc + es.countP (fun e => decide (e.hp ≤ 0)) ∧
      ∃ groups : List (List Shard),
        (deathsGo o es k sh sc).2.1 = sh ++ groups.flatten ∧
        List.Forall₂ (fun gp (e : Enemy) =>
          (2 ≤ gp.length ∧ gp.length ≤ 5) ∧
          ∀ s ∈ gp, s.x = e.x ∧ s.y = e.y ∧
            (3 ≤ s.ttl ∧ s.ttl ≤ 6) ∧ (6 ≤ s.value ∧ s.value ≤ 12))
          groups (es.filter (fun e => decide (e.hp ≤ 0))) := by
  intro es
  induction es with
  | nil =>
    intro k sh sc
    exact ⟨rfl, by simp [deathsGo], [], by simp [deathsGo], by simp⟩
  | cons e es ih =>
    intro k sh sc
    by_cases h : e.hp ≤ 0
    · obtain ⟨ha, hs, groups, hsh, hF⟩ := ih (k + 1) (sh ++ mkShards o k e) (sc + 1)
      refine ⟨?_, ?_, mkShards o k e :: groups, ?_, ?_⟩
      · simp [deathsGo, h, ha]
      · simp only [deathsGo, if_pos h]
        rw [hs, List.countP_cons]
        simp [h]
        omega
      · simp only [deathsGo, if_pos h]
        rw [hsh, List.flatten_cons, List.append_assoc]
      · rw [List.filter_cons_of_pos (by simp [h])]
        refine List.Forall₂.cons ⟨?_, ?_⟩ hF
        · constructor
          · simpa [mkShards] using (hN k).1
          · simpa [mkShards] using (hN k).2
        · intro s hs'
          simp only [mkShards, List.mem_map, List.mem_range] at hs'
          obtain ⟨j, _, rfl⟩ := hs'
          exact ⟨rfl, rfl, hT k j, hV k j⟩
    · obtain ⟨ha, hs, groups, hsh, hF⟩ := ih k sh sc
      refine ⟨?_, ?_, groups, ?_, ?_⟩
      · simp [deathsGo, h, ha]
      · simp only [deathsGo, if_neg h]
        rw [hs, List.countP_cons]
        simp [h]
      · simp only [deathsGo, if_neg h]
        exact hsh
      · rw [List.filter_cons_of_neg (by simp [h])]
        exact hF


/-- Concrete oracle used by the witness instantiations. -/
def oW : Orac :=
  { sin := fun _ => 0
    cos := fun _ => 1
    hypot := fun _ _ => 0
    starX := fun _ => 0
    starY := fun _ => 0
    spawnKind := "asteroid"
    spawnY := 100
    astR := 20
    astSpeed := 100
    redCd0 := 1
    snakePhase := 0
    spawnReset := 1
    blobP := fun _ => false
    blobKick := fun _ => 0
    redCd := fun _ => 1
    dieN := fun _ => 3
    dieAng := fun _ _ => 0
    dieSp := fun _ _ => 100
    dieTtl := fun _ _ => 4
    dieVal := fun _ _ => 8 }

/-- Concrete world state used by the witness instantiations. -/
def gW : Game :=
  { w := 800, h := 600, px := 144, py := 300, base_speed := 220, boost_mul := 2,
    energy := 60, energy_max := 120, boost_active := false, shield_active := false,
    shoot_cd := 0, score := 0, stars := [], bullets := [], ebullets := [],
    enemies := [], shards := [], spawn_t := 1 }

/-- C7: the degenerate-distance guard of the red-enemy aiming calculation and
of the snake chase step replaces a zero distance by the unit fallback 1.0, so
the divisor `pyOr1 (hypot dx dy)` is nonzero for all inputs and the step has
no division fault. -/
theorem divisor_guard_nonzero (o : Orac) (dx dy : ℚ) : pyOr1 (o.hypot dx dy) ≠ 0 := by
  unfold pyOr1
  by_cases h : o.hypot dx dy = 0
  · simp [h]
  · simp [h]

/-- C8: the score is monotonically non-decreasing across any `Game.update`
call, for every world state, oracle and inputs. -/
theorem score_monotone (o : Orac) (dt mdx mdy : ℚ) (sht bst shd : Bool) (g : Game) :
    g.score ≤ (Game.update o dt mdx mdy sht bst shd g).score := by
  simp only [Game.update, update10, update5, stageShards_score, stageEbullets_score,
    stageDeaths_score', stageHits_score, stageCullEnemies_score, stageEnemies_score,
    stageSpawn_score, stageBullets_score, stageStars_score, stageShoot_score,
    stageMove_score, stageResource_score]
  exact deathsGo_score_le o _ 0 _ g.score

/-- C10: `Game.update` never writes the configuration fields `w`, `h`,
`base_speed`, `boost_mul`, `energy_max`, and preserves the size of the star
collection; construction creates exactly 140 stars. -/
theorem config_and_stars_preserved (o : Orac) (dt mdx mdy : ℚ) (sht bst shd : Bool)
    (g : Game) :
    (Game.update o dt mdx mdy sht bst shd g).w = g.w ∧
    (Game.update o dt mdx mdy sht bst shd g).h = g.h ∧
    (Game.update o dt mdx mdy sht bst shd g).base_speed = g.base_speed ∧
    (Game.update o dt mdx mdy sht bst shd g).boost_mul = g.boost_mul ∧
    (Game.update o dt mdx mdy sht bst shd g).energy_max = g.energy_max ∧
    (Game.update o dt mdx mdy sht bst shd g).stars.length = g.stars.length ∧
    ∀ (w h : ℚ) (sx sy sl : ℕ → ℚ), (Game.init w h sx sy sl).stars.length = 140 := by
  refine ⟨?_, ?_, ?_, ?_, ?_, ?_, ?_⟩
  · simp [Game.update, update10, update5]
  · simp [Game.update, update10, update5]
  · simp [Game.update, update10, update5]
  · simp [Game.update, update10, update5]
  · simp [Game.update, update10, update5]
  · simp [Game.update, update10, update5, stageStars_stars', starsGo_length]
  · intro w h sx sy sl
    simp [Game.init]

/-- C2: the player position lies in `[20, w-20] × [20, h-20]` after
construction (for the in-use playfield sizes, `112 ≤ w` and `40 ≤ h`) and
after every `Game.update` call (whenever the playfield is at least 40×40,
which the constructor sizes satisfy). -/
theorem position_clamp :
    (∀ (w h : ℚ) (sx sy sl : ℕ → ℚ), 112 ≤ w → 40 ≤ h →
      20 ≤ (Game.init w h sx sy sl).px ∧ (Game.init w h sx sy sl).px ≤ w - 20 ∧
      20 ≤ (Game.init w h sx sy sl).py ∧ (Game.init w h sx sy sl).py ≤ h - 20) ∧
    (∀ (o : Orac) (dt mdx mdy : ℚ) (sht bst shd : Bool) (g : Game), 40 ≤ g.w → 40 ≤ g.h →
      20 ≤ (Game.update o dt mdx mdy sht bst shd g).px ∧
      (Game.update o dt mdx mdy sht bst shd g).px ≤ g.w - 20 ∧
      20 ≤ (Game.update o dt mdx mdy sht bst shd g).py ∧
      (Game.update o dt mdx mdy sht bst shd g).py ≤ g.h - 20) := by
  constructor
  · intro w h sx sy sl hw hh
    have hpx : (Game.init w h sx sy sl).px = w * 0.18 := rfl
    have hpy : (Game.init w h sx sy sl).py = h * 0.5 := rfl
    rw [hpx, hpy]
    norm_num
    refine ⟨by linarith, by linarith, by linarith, by linarith⟩
  · intro o dt mdx mdy sht bst shd g hw hh
    have hx : (Game.update o dt mdx mdy sht bst shd g).px =
        (stageMove dt mdx mdy (stageResource dt bst shd g)).px := by
      simp [Game.update, update10, update5]
    have hy : (Game.update o dt mdx mdy sht bst shd g).py =
        (stageMove dt mdx mdy (stageResource dt bst shd g)).py := by
      simp [Game.update, update10, update5]
    refine ⟨?_, ?_, ?_, ?_⟩
    · rw [hx, stageMove_px']
      exact le_max_left _ _
    · rw [hx, stageMove_px', stageResource_w]
      exact max_le (by linarith) (min_le_left _ _)
    · rw [hy, stageMove_py']
      exact le_max_left _ _
    · rw [hy, stageMove_py', stageResource_h]
      exact max_le (by linarith) (min_le_left _ _)

/-- Witness for C2 at the constructor sizes 800×600 and a concrete state. -/
theorem position_clamp_witness :
    (20 ≤ (Game.init 800 600 (fun _ => 0) (fun _ => 0) (fun _ => 1)).px ∧
      (Game.init 800 600 (fun _ => 0) (fun _ => 0) (fun _ => 1)).px ≤ 800 - 20) ∧
    (20 ≤ (Game.update oW (1/60) 1 1 true true true gW).px ∧
      (Game.update oW (1/60) 1 1 true true true gW).px ≤ gW.w - 20) :=
  ⟨⟨(position_clamp.1 800 600 _ _ _ (by with_unfolding_all decide)
        (by with_unfolding_all decide)).1,
    (position_clamp.1 800 600 _ _ _ (by with_unfolding_all decide)
        (by with_unfolding_all decide)).2.1⟩,
   ⟨(position_clamp.2 oW (1/60) 1 1 true true true gW (by with_unfolding_all decide)
        (by with_unfolding_all decide)).1,
    (position_clamp.2 oW (1/60) 1 1 true true true gW (by with_unfolding_all decide)
        (by with_unfolding_all decide)).2.1⟩⟩

/-- C1: for a reachable state (energy within bounds, live shard values
nonnegative, death-shard value draws nonnegative) and any call with `dt > 0`,
the energy after `Game.update` stays within `[0, energy_max]`. -/
theorem energy_bounds (o : Orac) (dt mdx mdy : ℚ) (sht bst shd : Bool) (g : Game)
    (hdt : 0 < dt) (h0 : 0 ≤ g.energy) (h1 : g.energy ≤ g.energy_max)
    (hsh : ∀ s ∈ g.shards, 0 ≤ s.value) (hval : ∀ k j, 0 ≤ o.dieVal k j) :
    0 ≤ (Game.update o dt mdx mdy sht bst shd g).energy ∧
    (Game.update o dt mdx mdy sht bst shd g).energy ≤
      (Game.update o dt mdx mdy sht bst shd g).energy_max := by
  have hs1 : 0 ≤ (stageResource dt bst shd g).energy ∧
      (stageResource dt bst shd g).energy ≤ g.energy_max := by
    rw [stageResource_energy']
    refine ⟨le_max_left _ _, max_le (le_trans h0 h1) ?_⟩
    have := drainOf_nonneg dt (bst && decide (0 < g.energy))
      (shd && decide (0 < g.energy)) hdt.le
    linarith
  have h10e : (update10 o dt mdx mdy sht bst shd g).energy =
      (stageResource dt bst shd g).energy := by
    simp [update10, update5]
  have h10m : (update10 o dt mdx mdy sht bst shd g).energy_max = g.energy_max := by
    simp [update10, update5]
  have h10sh : ∀ s ∈ (update10 o dt mdx mdy sht bst shd g).shards, 0 ≤ s.value := by
    intro s hs
    rw [update10, stageDeaths_shards'] at hs
    have hX : (stageHits (stageCullEnemies (stageEnemies o dt (stageSpawn o dt
        (update5 o dt mdx mdy sht bst shd g))))).shards = g.shards := by
      simp [update5]
    rw [hX] at hs
    exact deathsGo_shards_val o hval _ _ _ _ hsh s hs
  have h11 : 0 ≤ (stageEbullets (update10 o dt mdx mdy sht bst shd g)).energy ∧
      (stageEbullets (update10 o dt mdx mdy sht bst shd g)).energy ≤ g.energy_max := by
    rw [stageEbullets_energy']
    exact ebGo_bounds _ _ _ _ g.energy_max (h10e ▸ hs1.1) (by rw [h10e]; exact hs1.2)
  have hE2m : (stageEbullets (update10 o dt mdx mdy sht bst shd g)).energy_max =
      g.energy_max := by
    simp [h10m]
  have hE2sh : ∀ s ∈ (stageEbullets (update10 o dt mdx mdy sht bst shd g)).shards,
      0 ≤ s.value := by
    simpa using h10sh
  have hfin : Game.update o dt mdx mdy sht bst shd g =
      stageShards dt (stageEbullets (update10 o dt mdx mdy sht bst shd g)) := rfl
  rw [hfin, stageShards_energy']
  obtain ⟨hb0, hb1⟩ := shGo_bounds dt
    (playerRect (stageEbullets (update10 o dt mdx mdy sht bst shd g)).px
      (stageEbullets (update10 o dt mdx mdy sht bst shd g)).py)
    (stageEbullets (update10 o dt mdx mdy sht bst shd g)).shards
    (stageEbullets (update10 o dt mdx mdy sht bst shd g)).energy
    (stageEbullets (update10 o dt mdx mdy sht bst shd g)).energy_max
    hE2sh h11.1 (by rw [hE2m]; exact h11.2)
  refine ⟨hb0, ?_⟩
  have hm : (stageShards dt (stageEbullets (update10 o dt mdx mdy sht bst shd g))).energy_max =
      (stageEbullets (update10 o dt mdx mdy sht bst shd g)).energy_max := by
    simp
  rw [hm]
  exact hb1

/-- Witness for C1 at a concrete oracle, state and inputs. -/
theorem energy_bounds_witness :
    0 ≤ (Game.update oW (1/60) 1 0 true true true gW).energy ∧
    (Game.update oW (1/60) 1 0 true true true gW).energy ≤
      (Game.update oW (1/60) 1 0 true true true gW).energy_max :=
  energy_bounds oW (1/60) 1 0 true true true gW
    (by with_unfolding_all decide) (by with_unfolding_all decide)
    (by with_unfolding_all decide)
    (by intro s hs; simp [gW] at hs)
    (by intro k j; show (0 : ℚ) ≤ 8; with_unfolding_all decide)


/-- C3: at the hostile-projectile collision stage of `Game.update` (applied
to any state, in particular the reachable pre-stage-11 state), every hostile
projectile whose rectangle overlaps the fixed 24×20 player hitbox is
consumed and every other one is retained; with the shield active the energy
is unchanged by the hits, otherwise each hit subtracts exactly 12, with the
result clamped at 0. -/
theorem hostile_vs_player (g : Game) (h0 : 0 ≤ g.energy) :
    (stageEbullets g).ebullets =
      g.ebullets.filter (fun b => !(Rect.collide b.rect (playerRect g.px g.py))) ∧
    (stageEbullets g).energy =
      (if g.shield_active then g.energy
       else max 0 (g.energy -
         12 * ((g.ebullets.countP
           (fun b => Rect.collide b.rect (playerRect g.px g.py)) : ℕ) : ℚ))) := by
  obtain ⟨h2, h1⟩ := ebGo_spec (playerRect g.px g.py) g.shield_active g.ebullets g.energy h0
  exact ⟨by rw [stageEbullets_ebullets']; exact h2,
         by rw [stageEbullets_energy']; exact h1⟩

/-- Concrete state for the C3 witness: one hostile projectile on the player,
shield inactive, energy 50. -/
def gW3 : Game :=
  { gW with energy := 50, ebullets := [⟨144, 300, -280, 0, REDCOL, false, 14, 3⟩] }

/-- Witness for C3. -/
theorem hostile_vs_player_witness :
    (stageEbullets gW3).ebullets =
      gW3.ebullets.filter (fun b => !(Rect.collide b.rect (playerRect gW3.px gW3.py))) ∧
    (stageEbullets gW3).energy =
      (if gW3.shield_active then gW3.energy
       else max 0 (gW3.energy -
         12 * ((gW3.ebullets.countP
           (fun b => Rect.collide b.rect (playerRect gW3.px gW3.py)) : ℕ) : ℚ))) :=
  hostile_vs_player gW3 (by with_unfolding_all decide)

/-- C4: at the death-resolution stage of `Game.update`, every enemy with
hitpoints ≤ 0 is removed, the score increases by exactly one per dead enemy,
and each dead enemy appends (in order) a group of 2-5 shards at its last
position with ttl in [3,6] and value in [6,12], given the random draws lie
in their documented ranges. -/
theorem enemy_death_resolution (o : Orac) (g : Game)
    (hN : ∀ k, 2 ≤ o.dieN k ∧ o.dieN k ≤ 5)
    (hT : ∀ k j, 3 ≤ o.dieTtl k j ∧ o.dieTtl k j ≤ 6)
    (hV : ∀ k j, 6 ≤ o.dieVal k j ∧ o.dieVal k j ≤ 12) :
    (stageDeaths o g).enemies = g.enemies.filter (fun e => !decide (e.hp ≤ 0)) ∧
    (stageDeaths o g).score = g.score + g.enemies.countP (fun e => decide (e.hp ≤ 0)) ∧
    ∃ groups : List (List Shard),
      (stageDeaths o g).shards = g.shards ++ groups.flatten ∧
      List.Forall₂ (fun gp (e : Enemy) =>
        (2 ≤ gp.length ∧ gp.length ≤ 5) ∧
        ∀ s ∈ gp, s.x = e.x ∧ s.y = e.y ∧
          (3 ≤ s.ttl ∧ s.ttl ≤ 6) ∧ (6 ≤ s.value ∧ s.value ≤ 12))
        groups (g.enemies.filter (fun e => decide (e.hp ≤ 0))) := by
  obtain ⟨h1, h2, groups, h3, h4⟩ := deathsGo_spec o hN hT hV g.enemies 0 g.shards g.score
  exact ⟨by rw [stageDeaths_enemies']; exact h1,
         by rw [stageDeaths_score']; exact h2,
         groups, by rw [stageDeaths_shards']; exact h3, h4⟩

/-- Concrete state for the C4 witness: one dead asteroid and one live blob. -/
def gW4 : Game :=
  { gW with score := 5, enemies :=
      [⟨"asteroid", 400, 300, -100, 0, 0, 0, some 20, none, none, none⟩,
       ⟨"blob", 500, 200, -140, 0, 3, 0, none, none, none, none⟩] }

/-- Witness for C4. -/
theorem enemy_death_resolution_witness :
    (stageDeaths oW gW4).enemies = gW4.enemies.filter (fun e => !decide (e.hp ≤ 0)) ∧
    (stageDeaths oW gW4).score = gW4.score + gW4.enemies.countP (fun e => decide (e.hp ≤ 0)) ∧
    ∃ groups : List (List Shard),
      (stageDeaths oW gW4).shards = gW4.shards ++ groups.flatten ∧
      List.Forall₂ (fun gp (e : Enemy) =>
        (2 ≤ gp.length ∧ gp.length ≤ 5) ∧
        ∀ s ∈ gp, s.x = e.x ∧ s.y = e.y ∧
          (3 ≤ s.ttl ∧ s.ttl ≤ 6) ∧ (6 ≤ s.value ∧ s.value ≤ 12))
        groups (gW4.enemies.filter (fun e => decide (e.hp ≤ 0))) :=
  enemy_death_resolution oW gW4
    (by intro k; show 2 ≤ 3 ∧ 3 ≤ 5; decide)
    (by intro k j; show (3 : ℚ) ≤ 4 ∧ (4 : ℚ) ≤ 6; with_unfolding_all decide)
    (by intro k j; show (6 : ℚ) ≤ 8 ∧ (8 : ℚ) ≤ 12; with_unfolding_all decide)

/-- C5: in the bullet-vs-enemy pass, a friendly projectile is tested against
the enemies in collection order with the variant hitbox predicate
`enemyHit`; on the first match only that enemy loses exactly one hitpoint,
no later enemy is tested, and the projectile is consumed; a projectile that
matches no enemy is retained and leaves the enemies unchanged. -/
theorem single_hit_rule (b : Laser) (bs : List Laser) (es : List Enemy) :
    (∀ es', hitFirst b es = some es' →
      bulletsPass (b :: bs) es = bulletsPass bs es' ∧
      ∃ pre e post, es = pre ++ e :: post ∧
        es' = pre ++ ({ e with hp := e.hp - 1 } :: post) ∧
        (∀ e' ∈ pre, enemyHit b e' = false) ∧ enemyHit b e = true) ∧
    (hitFirst b es = none →
      bulletsPass (b :: bs) es = (b :: (bulletsPass bs es).1, (bulletsPass bs es).2) ∧
      ∀ e ∈ es, enemyHit b e = false) := by
  constructor
  · intro es' hs
    exact ⟨by simp [bulletsPass, hs], hitFirst_some b es es' hs⟩
  · intro hn
    exact ⟨by simp [bulletsPass, hn], hitFirst_none b es hn⟩

/-- Concrete projectile for the C5 witness. -/
def bW : Laser := ⟨400, 300, 520, 0, YELLOW, true, 14, 3⟩

/-- Two overlapping asteroids for the C5 witness. -/
def esW : List Enemy :=
  [⟨"asteroid", 400, 300, -100, 0, 3, 0, some 20, none, none, none⟩,
   ⟨"asteroid", 410, 300, -100, 0, 2, 0, some 15, none, none, none⟩]

/-- Expected enemy list after the C5 witness hit: only the first asteroid
loses one hitpoint. -/
def esW' : List Enemy :=
  [⟨"asteroid", 400, 300, -100, 0, 2, 0, some 20, none, none, none⟩,
   ⟨"asteroid", 410, 300, -100, 0, 2, 0, some 15, none, none, none⟩]

/-- Witness for C5. -/
theorem single_hit_rule_witness :
    bulletsPass [bW] esW = bulletsPass [] esW' ∧
    ∃ pre e post, esW = pre ++ e :: post ∧
      esW' = pre ++ ({ e with hp := e.hp - 1 } :: post) ∧
      (∀ e' ∈ pre, enemyHit bW e' = false) ∧ enemyHit bW e = true :=
  (single_hit_rule bW [] esW).1 esW' (by with_unfolding_all decide)


/-- C9: boost and shield activation are decided once from the energy at the
start of the call and require it strictly positive; with positive entry
energy and shield requested, the hostile-projectile pass leaves energy
unchanged (absorption, even when the drain earlier in the same frame already
reduced energy to 0); with entry energy 0 the shield stays inactive and the
no-shield branch applies, subtracting 12 per overlapping hostile projectile,
clamped at 0. -/
theorem shield_boost_activation (o : Orac) (dt mdx mdy : ℚ) (sht bst shd : Bool)
    (g : Game) :
    (Game.update o dt mdx mdy sht bst shd g).shield_active =
      (shd && decide (0 < g.energy)) ∧
    (Game.update o dt mdx mdy sht bst shd g).boost_active =
      (bst && decide (0 < g.energy)) ∧
    (0 < g.energy → shd = true →
      (stageEbullets (update10 o dt mdx mdy sht bst shd g)).energy =
        (update10 o dt mdx mdy sht bst shd g).energy) ∧
    (g.energy ≤ 0 →
      (update10 o dt mdx mdy sht bst shd g).shield_active = false ∧
      (stageEbullets (update10 o dt mdx mdy sht bst shd g)).energy =
        max 0 ((update10 o dt mdx mdy sht bst shd g).energy -
          12 * (((update10 o dt mdx mdy sht bst shd g).ebullets.countP
            (fun b => Rect.collide b.rect
              (playerRect (update10 o dt mdx mdy sht bst shd g).px
                (update10 o dt mdx mdy sht bst shd g).py)) : ℕ) : ℚ))) := by
  have hsa : (update10 o dt mdx mdy sht bst shd g).shield_active =
      (shd && decide (0 < g.energy)) := by
    simp [update10, update5]
  have h0' : 0 ≤ (update10 o dt mdx mdy sht bst shd g).energy := by
    have he : (update10 o dt mdx mdy sht bst shd g).energy =
        (stageResource dt bst shd g).energy := by
      simp [update10, update5]
    rw [he, stageResource_energy']
    exact le_max_left _ _
  refine ⟨?_, ?_, ?_, ?_⟩
  · simp [Game.update, update10, update5]
  · simp [Game.update, update10, update5]
  · intro hE hshd
    rw [stageEbullets_energy']
    have ht : (update10 o dt mdx mdy sht bst shd g).shield_active = true := by
      rw [hsa, hshd]
      simp [hE]
    rw [ht]
    exact ebGo_shield_energy _ _ _
  · intro hE
    have hnot : ¬ (0 < g.energy) := not_lt.2 hE
    have hfalse : (update10 o dt mdx mdy sht bst shd g).shield_active = false := by
      rw [hsa]
      simp [hnot]
    refine ⟨hfalse, ?_⟩
    rw [stageEbullets_energy']
    obtain ⟨_, h1⟩ := ebGo_spec
      (playerRect (update10 o dt mdx mdy sht bst shd g).px
        (update10 o dt mdx mdy sht bst shd g).py)
      ((update10 o dt mdx mdy sht bst shd g).shield_active)
      ((update10 o dt mdx mdy sht bst shd g).ebullets)
      ((update10 o dt mdx mdy sht bst shd g).energy) h0'
    rw [h1, hfalse]
    simp

/-- Concrete zero-energy state for the C9 witness. -/
def gZ : Game := { gW with energy := 0 }

/-- Witness for C9. -/
theorem shield_boost_activation_witness :
    (Game.update oW (1/60) 0 0 false false true gW).shield_active =
      (true && decide (0 < gW.energy)) ∧
    (stageEbullets (update10 oW (1/60) 0 0 false false true gW)).energy =
      (update10 oW (1/60) 0 0 false false true gW).energy ∧
    (update10 oW (1/60) 0 0 false false true gZ).shield_active = false :=
  ⟨(shield_boost_activation oW (1/60) 0 0 false false true gW).1,
   (shield_boost_activation oW (1/60) 0 0 false false true gW).2.2.1
     (by with_unfolding_all decide) rfl,
   ((shield_boost_activation oW (1/60) 0 0 false false true gZ).2.2.2
     (by with_unfolding_all decide)).1⟩

/-- C6: after `Game.update` every surviving friendly projectile has its
(post-integration) position in the friendly cull box `[-40, w+80] × [-40,
h+40]`; at the cull stage every hostile projectile lies in the hostile box
`[-80, w+40] × [-40, h+40]`; a friendly projectile at `x = w+100` moving
right at 520 px/s is gone from the updated state, and one at `x = w+50` is
retained by the cull whenever `dt ≤ 1/60`. -/
theorem projectile_culling (o : Orac) (dt mdx mdy : ℚ) (sht bst shd : Bool) (g : Game)
    (hdt : 0 ≤ dt) :
    (∀ b ∈ (Game.update o dt mdx mdy sht bst shd g).bullets,
      -40 ≤ b.x ∧ b.x ≤ g.w + 80 ∧ -40 ≤ b.y ∧ b.y ≤ g.h + 40) ∧
    (∀ b ∈ (update5 o dt mdx mdy sht bst shd g).ebullets,
      -80 ≤ b.x ∧ b.x ≤ g.w + 40 ∧ -40 ≤ b.y ∧ b.y ≤ g.h + 40) ∧
    (∀ b ∈ g.bullets, b.x = g.w + 100 → b.vx = 520 →
      Laser.update dt b ∉ (Game.update o dt mdx mdy sht bst shd g).bullets) ∧
    (∀ b ∈ g.bullets, b.x = g.w + 50 → b.vx = 520 → b.vy = 0 →
      -40 ≤ b.y → b.y ≤ g.h + 40 → dt ≤ 1/60 → 0 ≤ g.w →
      Laser.update dt b ∈ (update5 o dt mdx mdy sht bst shd g).bullets) := by
  have hbox5 : ∀ b ∈ (update5 o dt mdx mdy sht bst shd g).bullets,
      -40 ≤ b.x ∧ b.x ≤ g.w + 80 ∧ -40 ≤ b.y ∧ b.y ≤ g.h + 40 := by
    intro b hb
    rw [update5, stageBullets_bullets'] at hb
    obtain ⟨hmem, hcond⟩ := List.mem_filter.1 hb
    simp only [Bool.and_eq_true, decide_eq_true_eq, stageStars_w, stageShoot_w,
      stageMove_w, stageResource_w, stageStars_h, stageShoot_h, stageMove_h,
      stageResource_h] at hcond
    exact ⟨hcond.1.1.1, hcond.1.1.2, hcond.1.2, hcond.2⟩
  have hmemupd : ∀ b, b ∈ (Game.update o dt mdx mdy sht bst shd g).bullets →
      b ∈ (update5 o dt mdx mdy sht bst shd g).bullets := by
    intro b hb
    have hrw : (Game.update o dt mdx mdy sht bst shd g).bullets =
        (bulletsPass (update5 o dt mdx mdy sht bst shd g).bullets
          (stageCullEnemies (stageEnemies o dt (stageSpawn o dt
            (update5 o dt mdx mdy sht bst shd g)))).enemies).1 := by
      simp only [Game.update, update10, stageShards_bullets, stageEbullets_bullets,
        stageDeaths_bullets, stageHits_bullets', stageCullEnemies_bullets,
        stageEnemies_bullets, stageSpawn_bullets]
    rw [hrw] at hb
    exact (bulletsPass_sublist _ _).subset hb
  have hbox5e : ∀ b ∈ (update5 o dt mdx mdy sht bst shd g).ebullets,
      -80 ≤ b.x ∧ b.x ≤ g.w + 40 ∧ -40 ≤ b.y ∧ b.y ≤ g.h + 40 := by
    intro b hb
    rw [update5, stageBullets_ebullets'] at hb
    obtain ⟨hmem, hcond⟩ := List.mem_filter.1 hb
    simp only [Bool.and_eq_true, decide_eq_true_eq, stageStars_w, stageShoot_w,
      stageMove_w, stageResource_w, stageStars_h, stageShoot_h, stageMove_h,
      stageResource_h] at hcond
    exact ⟨hcond.1.1.1, hcond.1.1.2, hcond.1.2, hcond.2⟩
  refine ⟨fun b hb => hbox5 b (hmemupd b hb), hbox5e, ?_, ?_⟩
  · intro b hb hx hv hmem'
    have hbox := hbox5 _ (hmemupd _ hmem')
    have hux : (Laser.update dt b).x = g.w + 100 + 520 * dt := by
      simp [Laser.update, hx, hv]
    have h80 : (Laser.update dt b).x ≤ g.w + 80 := hbox.2.1
    rw [hux] at h80
    nlinarith
  · intro b hb hx hv hvy hy1 hy2 hdt6 hw
    have hux : (Laser.update dt b).x = g.w + 50 + 520 * dt := by
      simp [Laser.update, hx, hv]
    have huy : (Laser.update dt b).y = b.y := by
      simp [Laser.update, hvy]
    rw [update5, stageBullets_bullets']
    refine List.mem_filter.2 ⟨?_, ?_⟩
    · refine List.mem_map.2 ⟨b, ?_, rfl⟩
      have hbG : b ∈ (stageMove dt mdx mdy (stageResource dt bst shd g)).bullets := by
        simp only [stageMove_bullets, stageResource_bullets]
        exact hb
      simp only [stageStars_bullets]
      rw [stageShoot_bullets']
      split
      · exact List.mem_append_left _ hbG
      · exact hbG
    · simp only [Bool.and_eq_true, decide_eq_true_eq, stageStars_w, stageShoot_w,
        stageMove_w, stageResource_w, stageStars_h, stageShoot_h, stageMove_h,
        stageResource_h]
      refine ⟨⟨⟨?_, ?_⟩, ?_⟩, ?_⟩
      · rw [hux]; nlinarith
      · rw [hux]; nlinarith
      · rw [huy]; exact hy1
      · rw [huy]; exact hy2


/-- Friendly projectile at `x = w+100` for the C6 witness. -/
def b100 : Laser := ⟨900, 300, 520, 0, YELLOW, true, 14, 3⟩

/-- Friendly projectile at `x = w+50` for the C6 witness. -/
def b50 : Laser := ⟨850, 300, 520, 0, YELLOW, true, 14, 3⟩

/-- Concrete state for the C6 witness. -/
def gB : Game := { gW with bullets := [b100, b50] }

/-- Witness for C6. -/
theorem projectile_culling_witness :
    Laser.update (1/60) b100 ∉ (Game.update oW (1/60) 0 0 false false false gB).bullets ∧
    Laser.update (1/60) b50 ∈ (update5 oW (1/60) 0 0 false false false gB).bullets :=
  ⟨(projectile_culling oW (1/60) 0 0 false false false gB
      (by with_unfolding_all decide)).2.2.1 b100
      (by with_unfolding_all decide) (by with_unfolding_all decide)
      (by with_unfolding_all decide),
   (projectile_culling oW (1/60) 0 0 false false false gB
      (by with_unfolding_all decide)).2.2.2 b50
      (by with_unfolding_all decide) (by with_unfolding_all decide)
      (by with_unfolding_all decide) (by with_unfolding_all decide)
      (by with_unfolding_all decide) (by with_unfolding_all decide)
      (by with_unfolding_all decide) (by with_unfolding_all decide)⟩


/-- Witness for C7 at a concrete oracle whose hypot returns the degenerate
distance 0. -/
theorem divisor_guard_nonzero_witness : pyOr1 (oW.hypot 0 0) ≠ 0 :=
  divisor_guard_nonzero oW 0 0

end Pytroller
